import Mathlib

set_option maxHeartbeats 1000000

/- Shallow embedding of the GitFleet/RepoMetrics repository:
   the GitHub provider client (src/GitFleet/providers/github.py),
   the shared data models (src/GitFleet/models/common.py),
   and the credential manager (src/GitFleet/utils/auth.py).
   Modules of this repository that are imported by the sources but absent
   from them (GitFleet/providers/token_manager.py, GitFleet/models/repo.py)
   are modelled from the specification and marked as such. -/

/-- JSON-like dynamic values: the payloads the Python client manipulates.
`Json.null` doubles as Python `None` (the json module decodes null to None). -/
inductive Json where
  | null : Json
  | bool (b : Bool) : Json
  | num (n : Int) : Json
  | str (s : String) : Json
  | arr (xs : List Json) : Json
  | obj (fields : List (String × Json)) : Json

/-- Enumeration of supported Git provider types (models/common.py, providers/base.py). -/
inductive ProviderType where
  | github
  | gitlab
  | bitbucket
deriving DecidableEq

/-- Python exceptions that the conversion code can raise. -/
inductive PyErr where
  | keyError (key : String)
  | typeError
  | attributeError
  | valueErrorUnsupported
deriving DecidableEq

/-- First binding of a key in a Python dict literal (keys are unique in payloads). -/
def lookupJ (d : List (String × Json)) (k : String) : Option Json :=
  match d with
  | [] => none
  | (k2, v) :: rest => if k2 = k then some v else lookupJ rest k

/-- Python `data.get(key, default)`: the stored value when the key is present
(a stored JSON null stays null, i.e. Python None), the default otherwise. -/
def pyGetD (d : List (String × Json)) (k : String) (dflt : Json) : Json :=
  match lookupJ d k with
  | some v => v
  | none => dflt

/-- Python `data[key]`: the value, or a KeyError when absent. -/
def pyIndex (d : List (String × Json)) (k : String) : Except PyErr Json :=
  match lookupJ d k with
  | some v => Except.ok v
  | none => Except.error (PyErr.keyError k)

/-- Python `str(...)` on a JSON value. Container reprs are abbreviated; the
conversion code only ever applies this to numbers, strings and None. -/
def pyStr : Json → String
  | Json.null => "None"
  | Json.bool true => "True"
  | Json.bool false => "False"
  | Json.num n => toString n
  | Json.str s => s
  | Json.arr _ => "<list>"
  | Json.obj _ => "<dict>"

/-- Python truthiness of a JSON value. -/
def Json.truthy : Json → Bool
  | Json.null => false
  | Json.bool b => b
  | Json.num n => n != 0
  | Json.str s => s != ""
  | Json.arr xs => !xs.isEmpty
  | Json.obj fs => !fs.isEmpty

/-- User information record (models/common.py `UserInfo`). Field values are the
raw Python values the dataclass stores (dataclasses do not validate types);
`id` is a genuine string because the source applies `str(...)` to it. -/
structure UserInfo where
  id : String
  login : Json
  name : Json
  email : Json
  avatar_url : Json
  provider_type : ProviderType
  raw_data : Json

/-- Repository information record (models/common.py `RepoInfo`). -/
structure RepoInfo where
  name : Json
  full_name : Json
  clone_url : Json
  description : Json
  default_branch : Json
  created_at : Json
  updated_at : Json
  language : Json
  fork : Json
  forks_count : Json
  stargazers_count : Json
  provider_type : ProviderType
  visibility : Json
  owner : Option UserInfo
  raw_data : Json

/-- Branch information record (models/common.py `BranchInfo`). The source field
is called `protected`, a Lean keyword, hence `protected_flag` here. -/
structure BranchInfo where
  name : Json
  commit_sha : Json
  protected_flag : Json
  provider_type : ProviderType
  raw_data : Json

/-- Contributor information record (models/common.py `ContributorInfo`). -/
structure ContributorInfo where
  id : String
  login : Json
  contributions : Json
  avatar_url : Json
  provider_type : ProviderType
  raw_data : Json

/-- Rate limit information record (models/common.py `RateLimitInfo`). -/
structure RateLimitInfo where
  limit : Json
  remaining : Json
  reset_time : Json
  used : Json
  provider_type : ProviderType

/-- The `UserInfo` built for a repository owner inside `_convert_to_model`
(github.py lines 126-135): every field is read with `.get`, so it never fails. -/
def ownerToUserInfo (od : List (String × Json)) : UserInfo :=
  { id := pyStr (pyGetD od "id" (Json.str ""))
    login := pyGetD od "login" (Json.str "")
    name := pyGetD od "name" Json.null
    email := pyGetD od "email" Json.null
    avatar_url := pyGetD od "avatar_url" Json.null
    provider_type := ProviderType.github
    raw_data := Json.obj od }

/-- `_convert_to_model(data, UserInfo)` (github.py lines 160-172): `login` is
read with `data["login"]` (KeyError when absent), everything else with `.get`;
`id` defaults to the empty string and is passed through `str`. Non-dict
payloads fail in Python on the first attribute access; modelled as
`attributeError`. -/
def convertToUserInfo : Json → Except PyErr UserInfo
  | Json.obj d =>
    match lookupJ d "login" with
    | some l =>
      Except.ok
        { id := pyStr (pyGetD d "id" (Json.str ""))
          login := l
          name := pyGetD d "name" Json.null
          email := pyGetD d "email" Json.null
          avatar_url := pyGetD d "avatar_url" Json.null
          provider_type := ProviderType.github
          raw_data := Json.obj d }
    | none => Except.error (PyErr.keyError "login")
  | _ => Except.error PyErr.attributeError

/-- `_convert_to_model(data, RepoInfo)` (github.py lines 125-157): the branch
is only taken when `"owner" in data and data["owner"]` is truthy; otherwise
the function falls through every `elif` and raises
`ValueError("Unsupported model class: ...")`. With a truthy dict owner,
`name`, `full_name` and `clone_url` are indexed (KeyError when absent) and the
remaining fields use `.get` defaults. A truthy non-dict owner fails on
`owner_data.get` (AttributeError). Non-dict payloads are modelled coarsely as
`typeError`; no claim exercises them. -/
def convertToRepoInfo : Json → Except PyErr RepoInfo
  | Json.obj d =>
    match lookupJ d "owner" with
    | some ov =>
      if ov.truthy then
        match ov with
        | Json.obj od =>
          match pyIndex d "name" with
          | Except.error e => Except.error e
          | Except.ok nm =>
          match pyIndex d "full_name" with
          | Except.error e => Except.error e
          | Except.ok fn =>
          match pyIndex d "clone_url" with
          | Except.error e => Except.error e
          | Except.ok cu =>
          Except.ok
            { name := nm, full_name := fn, clone_url := cu
              description := pyGetD d "description" Json.null
              default_branch := pyGetD d "default_branch" (Json.str "main")
              created_at := pyGetD d "created_at" Json.null
              updated_at := pyGetD d "updated_at" Json.null
              language := pyGetD d "language" Json.null
              fork := pyGetD d "fork" (Json.bool false)
              forks_count := pyGetD d "forks_count" (Json.num 0)
              stargazers_count := pyGetD d "stargazers_count" Json.null
              provider_type := ProviderType.github
              visibility := pyGetD d "visibility" (Json.str "public")
              owner := some (ownerToUserInfo od)
              raw_data := Json.obj d }
        | _ => Except.error PyErr.attributeError
      else Except.error PyErr.valueErrorUnsupported
    | none => Except.error PyErr.valueErrorUnsupported
  | _ => Except.error PyErr.typeError

/-- `_convert_to_model(data, BranchInfo)` (github.py lines 188-198):
`data["name"]` then `data["commit"]["sha"]`; indexing a non-dict commit is a
TypeError in Python. -/
def convertToBranchInfo : Json → Except PyErr BranchInfo
  | Json.obj d =>
    match pyIndex d "name" with
    | Except.error e => Except.error e
    | Except.ok nm =>
    match pyIndex d "commit" with
    | Except.error e => Except.error e
    | Except.ok (Json.obj cd) =>
      (match pyIndex cd "sha" with
       | Except.error e => Except.error e
       | Except.ok sha =>
         Except.ok
           { name := nm, commit_sha := sha
             protected_flag := pyGetD d "protected" (Json.bool false)
             provider_type := ProviderType.github
             raw_data := Json.obj d })
    | Except.ok _ => Except.error PyErr.typeError
  | _ => Except.error PyErr.typeError

/-- `_convert_to_model(data, ContributorInfo)` (github.py lines 201-212):
`login` and `contributions` are indexed, `id` defaults to the empty string. -/
def convertToContributorInfo : Json → Except PyErr ContributorInfo
  | Json.obj d =>
    match pyIndex d "login" with
    | Except.error e => Except.error e
    | Except.ok l =>
    match pyIndex d "contributions" with
    | Except.error e => Except.error e
    | Except.ok c =>
    Except.ok
      { id := pyStr (pyGetD d "id" (Json.str ""))
        login := l
        contributions := c
        avatar_url := pyGetD d "avatar_url" Json.null
        provider_type := ProviderType.github
        raw_data := Json.obj d }
  | _ => Except.error PyErr.attributeError

/-- `_convert_to_model(data, RateLimitInfo)` (github.py lines 175-185):
all four fields are indexed. -/
def convertToRateLimitInfo : Json → Except PyErr RateLimitInfo
  | Json.obj d =>
    match pyIndex d "limit" with
    | Except.error e => Except.error e
    | Except.ok l =>
    match pyIndex d "remaining" with
    | Except.error e => Except.error e
    | Except.ok r =>
    match pyIndex d "reset" with
    | Except.error e => Except.error e
    | Except.ok rs =>
    match pyIndex d "used" with
    | Except.error e => Except.error e
    | Except.ok u =>
    Except.ok
      { limit := l, remaining := r, reset_time := rs, used := u
        provider_type := ProviderType.github }
  | _ => Except.error PyErr.typeError

/-- The exceptions `GitHubClient._request` can raise (github.py lines 20-37 and
line 118): `AuthError`, `RateLimitError(reset_time)`, and the
`httpx.HTTPStatusError` produced by `response.raise_for_status()` for every
other non-2xx status. The source defines no dedicated not-found exception. -/
inductive GitHubRequestError where
  | authError
  | rateLimitError (resetTime : Int)
  | httpStatusError (status : Nat)
deriving DecidableEq

/-- The specification's error kinds (spec section 7): authentication failure,
rate-limit failure, not-found failure, generic provider failure. -/
inductive ErrKind where
  | authenticationFailure
  | rateLimitExceeded
  | notFound
  | genericProvider
deriving DecidableEq

/-- Kind of a raised exception, by its exception class: `AuthError` is the
authentication failure, `RateLimitError` the rate-limit failure, and
`httpx.HTTPStatusError` the generic provider failure. No exception class of
the source maps to the not-found kind because none exists there. -/
def GitHubRequestError.kind : GitHubRequestError → ErrKind
  | GitHubRequestError.authError => ErrKind.authenticationFailure
  | GitHubRequestError.rateLimitError _ => ErrKind.rateLimitExceeded
  | GitHubRequestError.httpStatusError _ => ErrKind.genericProvider

/-- An HTTP response as `_request` inspects it: the status code, the parsed
`X-RateLimit-Remaining` / `X-RateLimit-Reset` headers (`none` when the header
is absent), and the JSON body. -/
structure HttpResponse where
  status : Nat
  rateLimitRemaining : Option Int
  rateLimitReset : Option Int
  body : Json

/-- Calls `_request` makes on the attached token manager after receiving a
response (github.py lines 91-96 and 111-114). -/
inductive Effect where
  | updateRateLimit (token : String) (remaining : Int) (resetTime : Int)
  | markTokenInvalid (token : String)
deriving DecidableEq

/-- Everything observable about one `_request` call. -/
structure RequestOutcome where
  tokenUsed : String
  headersSent : List (String × String)
  effects : List Effect
  result : Except GitHubRequestError Json

/-- `GitHubClient._request` (github.py lines 65-120). `mgrNext` is `none` when
no token manager is attached, `some none` when the attached manager's
`get_next_available_token` returned `None`, and `some (some t)` when it
returned a token `t`. Mirrors the source order: token selection, headers,
rate-limit push (only when the manager supplied a token), then the 403
rate-limit check, the 401 check (marking the token invalid only when the
manager supplied it), then `raise_for_status()` for any other non-2xx status,
else the JSON body. Header values are modelled as their parsed integers;
`int(headers.get(..., 0))` defaults absent headers to 0. -/
def ghRequest (token : String) (mgrNext : Option (Option String))
    (resp : HttpResponse) : RequestOutcome :=
  let tokenToUse := match mgrNext with | some (some t) => t | _ => token
  let supplied := match mgrNext with | some (some _) => true | _ => false
  let headers := [("Authorization", "token " ++ tokenToUse),
                  ("Accept", "application/vnd.github.v3+json"),
                  ("User-Agent", "GitFleet-Client")]
  let rlEffects :=
    if supplied then
      [Effect.updateRateLimit tokenToUse (resp.rateLimitRemaining.getD 0)
        (resp.rateLimitReset.getD 0)]
    else []
  if resp.status = 403 ∧ resp.rateLimitRemaining = some 0 then
    { tokenUsed := tokenToUse, headersSent := headers, effects := rlEffects
      result := Except.error
        (GitHubRequestError.rateLimitError (resp.rateLimitReset.getD 0)) }
  else if resp.status = 401 then
    { tokenUsed := tokenToUse, headersSent := headers
      effects := rlEffects ++
        (if supplied then [Effect.markTokenInvalid tokenToUse] else [])
      result := Except.error GitHubRequestError.authError }
  else if 200 ≤ resp.status ∧ resp.status ≤ 299 then
    { tokenUsed := tokenToUse, headersSent := headers, effects := rlEffects
      result := Except.ok resp.body }
  else
    { tokenUsed := tokenToUse, headersSent := headers, effects := rlEffects
      result := Except.error (GitHubRequestError.httpStatusError resp.status) }

/-- Failures of a full endpoint call: an exception out of `_request`, or a
Python exception out of `_convert_to_model`. -/
inductive FetchError where
  | api (e : GitHubRequestError)
  | py (e : PyErr)
deriving DecidableEq

/-- `GitHubClient.fetch_user_info` (github.py lines 221-224): `GET /user`
through `_request`, then `_convert_to_model(data, UserInfo)`. -/
def fetchUserInfo (token : String) (mgrNext : Option (Option String))
    (resp : HttpResponse) : Except FetchError UserInfo :=
  match (ghRequest token mgrNext resp).result with
  | Except.error e => Except.error (FetchError.api e)
  | Except.ok body =>
    match convertToUserInfo body with
    | Except.error e => Except.error (FetchError.py e)
    | Except.ok u => Except.ok u

/-- `GitHubClient.validate_credentials` (github.py lines 248-256), as a
function of the outcome of its `fetch_user_info()` call: success returns
`True`, `AuthError` is caught and returns `False`, every other exception is
re-raised. -/
def validateCredentials (r : Except FetchError UserInfo) : Except FetchError Bool :=
  match r with
  | Except.ok _ => Except.ok true
  | Except.error (FetchError.api GitHubRequestError.authError) => Except.ok false
  | Except.error e => Except.error e

/-- Endpoint string of `fetch_repositories` (github.py line 218). -/
def fetchRepositoriesEndpoint (owner : String) : String :=
  "/users/" ++ owner ++ "/repos?per_page=100"

/-- Endpoint string of `fetch_repository_details` (github.py line 233). -/
def fetchRepositoryDetailsEndpoint (owner repo : String) : String :=
  "/repos/" ++ owner ++ "/" ++ repo

/-- Endpoint string of `fetch_contributors` (github.py line 238). -/
def fetchContributorsEndpoint (owner repo : String) : String :=
  "/repos/" ++ owner ++ "/" ++ repo ++ "/contributors"

/-- Endpoint string of `fetch_branches` (github.py line 245). -/
def fetchBranchesEndpoint (owner repo : String) : String :=
  "/repos/" ++ owner ++ "/" ++ repo ++ "/branches"

/-- Does `hay` start with `needle`? -/
def startsWithB : List Char → List Char → Bool
  | [], _ => true
  | _ :: _, [] => false
  | a :: as, b :: bs => a = b && startsWithB as bs

/-- Does `hay` contain `needle` as a contiguous substring? -/
def containsB (needle : List Char) : List Char → Bool
  | [] => startsWithB needle []
  | c :: rest => startsWithB needle (c :: rest) || containsB needle rest

/-- Does the endpoint string carry the query parameter `per_page=100`? -/
def issuesPerPage100 (endpoint : String) : Bool :=
  containsB "per_page=100".data endpoint.data

/-- Token status (spec section 3, `TokenInfo`): Active, RateLimited, Invalid. -/
inductive TokenStatus where
  | active
  | rateLimited
  | invalid
deriving DecidableEq

/-- Modelled from the spec: `TokenInfo` of GitFleet/providers/token_manager.py,
which is imported by the sources but missing from them. A record of the token
string, its status, the remaining quota and the rate-limit reset time
(spec section 3). -/
structure TokenInfo where
  token : String
  status : TokenStatus
  remaining : Int
  resetTime : Int
deriving DecidableEq

/-- Modelled from the spec: the `TokenManager` state of
GitFleet/providers/token_manager.py (missing from the sources): a pool of
tokens and the round-robin cursor (spec section 4.7). -/
structure TokenManager where
  tokens : List TokenInfo
  cursor : Nat

/-- The empty token pool. -/
def TokenManager.empty : TokenManager := { tokens := [], cursor := 0 }

/-- Does the manager's pool hold an entry for this token string? -/
def TokenManager.owns (m : TokenManager) (t : String) : Bool :=
  m.tokens.any (fun ti => ti.token = t)

/-- Modelled from the spec: `add_token` is idempotent insertion as Active
(spec section 4.7). -/
def TokenManager.addToken (m : TokenManager) (t : String) : TokenManager :=
  if m.tokens.any (fun ti => ti.token = t) then m
  else { m with tokens := m.tokens ++ [{ token := t, status := TokenStatus.active,
                                         remaining := 0, resetTime := 0 }] }

/-- Modelled from the spec: `mark_token_invalid` is terminal and never reverts
(spec section 4.7). -/
def TokenManager.markTokenInvalid (m : TokenManager) (t : String) : TokenManager :=
  { m with tokens := m.tokens.map (fun ti =>
      if ti.token = t then { ti with status := TokenStatus.invalid } else ti) }

/-- A token is usable now when it is not Invalid and either has remaining
quota or its reset time has passed (spec section 3's Active condition). -/
def TokenInfo.usable (now : Int) (ti : TokenInfo) : Bool :=
  ti.status ≠ TokenStatus.invalid ∧ (ti.remaining > 0 ∨ now ≥ ti.resetTime)

/-- Modelled from the spec: `get_next_available_token` (spec section 4.7):
round-robin over the usable tokens; when none is usable, the not-Invalid token
with the earliest future reset time; `none` when no token is usable and no
rate-limit reset lies in the future. -/
def TokenManager.getNextAvailableToken (m : TokenManager) (now : Int) : Option TokenInfo :=
  let usable := m.tokens.filter (TokenInfo.usable now)
  match usable with
  | [] =>
    let limited := m.tokens.filter (fun ti =>
      ti.status ≠ TokenStatus.invalid ∧ ti.resetTime > now)
    limited.foldl (fun acc ti =>
      match acc with
      | none => some ti
      | some b => if ti.resetTime < b.resetTime then some ti else some b) none
  | _ => usable.get? (m.cursor % usable.length)

/-- The constructor-visible state of a `GitHubClient` (github.py lines 43-63). -/
structure GitHubClient where
  token : String
  baseUrl : String
  hasManager : Bool

/-- `GitHubClient.__init__` (github.py lines 43-63): stores the token, defaults
the base URL to `https://api.github.com`, and, when a token manager is
attached, registers the constructor token in it via `add_token`. Returns the
client together with the manager state after registration. -/
def ghInit (token : String) (baseUrl : Option String) (mgr : Option TokenManager) :
    GitHubClient × Option TokenManager :=
  ({ token := token, baseUrl := baseUrl.getD "https://api.github.com",
     hasManager := mgr.isSome },
   mgr.map (fun m => m.addToken token))

/-- ASCII code of the base64 character for a sextet value (0..63), standard
alphabet `A-Z a-z 0-9 + /`. -/
def b64Char (n : Nat) : Nat :=
  if n < 26 then 65 + n
  else if n < 52 then 97 + (n - 26)
  else if n < 62 then 48 + (n - 52)
  else if n = 62 then 43
  else 47

/-- Sextet value of a base64 character code (inverse of `b64Char` on its
range). -/
def b64Val (c : Nat) : Nat :=
  if 65 ≤ c ∧ c ≤ 90 then c - 65
  else if 97 ≤ c ∧ c ≤ 122 then c - 97 + 26
  else if 48 ≤ c ∧ c ≤ 57 then c - 48 + 52
  else if c = 43 then 62
  else 63

/-- Model of `base64.b64encode` over byte lists, used by
`CredentialManager._encode_token` (auth.py lines 47-49): each group of three
bytes becomes four alphabet characters; a final group of one or two bytes is
padded with `=` (ASCII 61). Token strings are modelled as their UTF-8 byte
lists. -/
def b64encode : List Nat → List Nat
  | [] => []
  | [a] => [b64Char (a / 4), b64Char (a % 4 * 16), 61, 61]
  | [a, b] => [b64Char (a / 4), b64Char (a % 4 * 16 + b / 16),
               b64Char (b % 16 * 4), 61]
  | a :: b :: c :: rest =>
    b64Char (a / 4) :: b64Char (a % 4 * 16 + b / 16) ::
    b64Char (b % 16 * 4 + c / 64) :: b64Char (c % 64) :: b64encode rest

/-- Model of `base64.b64decode` over byte lists, used by
`CredentialManager._decode_token` (auth.py lines 51-53), on well-formed
base64 input: four characters yield three bytes, fewer when padded. -/
def b64decode : List Nat → List Nat
  | w :: x :: y :: z :: rest =>
    if y = 61 then [b64Val w * 4 + b64Val x / 16]
    else if z = 61 then
      [b64Val w * 4 + b64Val x / 16, b64Val x % 16 * 16 + b64Val y / 4]
    else
      (b64Val w * 4 + b64Val x / 16) :: (b64Val x % 16 * 16 + b64Val y / 4) ::
      (b64Val y % 4 * 64 + b64Val z) :: b64decode rest
  | _ => []

/-- One stored credential as serialized by `save_credential` (auth.py lines
82-84): the base64-encoded token plus the optional username and host. -/
structure StoredCred where
  token : List Nat
  username : Option String
  host : Option String
deriving DecidableEq

/-- A decoded credential entry (auth.py `CredentialEntry`, lines 15-22), with
the token as its byte list. -/
structure CredentialEntry where
  provider : ProviderType
  token : List Nat
  username : Option String
  host : Option String
deriving DecidableEq

/-- The `value` of a ProviderType (base.py lines 14-18), used as the JSON key
of the credentials document. -/
def providerValue : ProviderType → String
  | ProviderType.github => "github"
  | ProviderType.gitlab => "gitlab"
  | ProviderType.bitbucket => "bitbucket"

/-- The state of a `CredentialManager` (auth.py): the JSON credentials file as
a provider-keyed list, and the in-memory cache. -/
structure CredentialManager where
  fileData : List (String × List StoredCred)
  cache : List (ProviderType × List CredentialEntry)

/-- Replace the binding of `k` in an association list (or append one at the
end), as assigning `creds_data[provider.value]` does in an insertion-ordered
dict. -/
def setEntry : List (String × List StoredCred) → String → List StoredCred →
    List (String × List StoredCred)
  | [], k, v => [(k, v)]
  | kv :: rest, k, v =>
    if kv.1 = k then (k, v) :: rest else kv :: setEntry rest k v

/-- Binding of `k` in the file data, as `creds_data.get(provider.value, [])`. -/
def getEntry : List (String × List StoredCred) → String → List StoredCred
  | [], _ => []
  | kv :: rest, k => if kv.1 = k then kv.2 else getEntry rest k

/-- `CredentialManager.save_credential` (auth.py lines 55-91): load the file,
initialize the provider's list if needed, append the new credential with the
base64-encoded token, write the file back, and clear the cache. -/
def saveCredential (cm : CredentialManager) (p : ProviderType) (tok : List Nat)
    (username host : Option String) : CredentialManager :=
  let key := providerValue p
  let newList := getEntry cm.fileData key ++
    [{ token := b64encode tok, username := username, host := host }]
  { fileData := setEntry cm.fileData key newList, cache := [] }

/-- `CredentialManager.get_credentials` (auth.py lines 93-142) for a provider
with no host filter: serve from the cache when present, otherwise read the
provider's list from the file, decode each token, build `CredentialEntry`
values and cache them. Returns the entries and the updated manager. -/
def getCredentials (cm : CredentialManager) (p : ProviderType) :
    List CredentialEntry × CredentialManager :=
  match cm.cache.find? (fun kv => kv.1 = p) with
  | some kv => (kv.2, cm)
  | none =>
    let creds := getEntry cm.fileData (providerValue p)
    let result := creds.map (fun c =>
      { provider := p, token := b64decode c.token, username := c.username,
        host := c.host })
    (result, { cm with cache := cm.cache ++ [(p, result)] })

/-- Clone status tags (spec section 3; mirrored by the enum the tests in
src/tests/test_repo_models.py exercise). -/
inductive CloneStatusType where
  | queued
  | cloning
  | completed
  | failed
deriving DecidableEq

/-- Modelled from the spec: the validated clone-status model of
GitFleet/models/repo.py (`PydanticCloneStatus`), which is imported by the
tests but missing from the sources: a tag with optional progress and error
fields (spec section 3). -/
structure PydanticCloneStatus where
  status_type : CloneStatusType
  progress : Option Int
  error : Option String
deriving DecidableEq

/-- Parse a tag string into a clone status tag. -/
def parseStatusType (s : String) : Option CloneStatusType :=
  if s = "queued" then some CloneStatusType.queued
  else if s = "cloning" then some CloneStatusType.cloning
  else if s = "completed" then some CloneStatusType.completed
  else if s = "failed" then some CloneStatusType.failed
  else none

/-- Modelled from the spec: construction of a `CloneStatus` from a flat record
(tag string plus optional progress and error), rejecting every combination
other than `Cloning` with a progress in [0,100], `Failed` with a non-empty
error, and `Queued`/`Completed` with neither (spec section 3). -/
def mkCloneStatus (tag : String) (progress : Option Int) (err : Option String) :
    Option PydanticCloneStatus :=
  match parseStatusType tag with
  | none => none
  | some t =>
    match t, progress, err with
    | CloneStatusType.cloning, some p, none =>
      if 0 ≤ p ∧ p ≤ 100 then
        some { status_type := CloneStatusType.cloning, progress := some p, error := none }
      else none
    | CloneStatusType.failed, none, some e =>
      if e ≠ "" then
        some { status_type := CloneStatusType.failed, progress := none, error := some e }
      else none
    | CloneStatusType.queued, none, none =>
      some { status_type := CloneStatusType.queued, progress := none, error := none }
    | CloneStatusType.completed, none, none =>
      some { status_type := CloneStatusType.completed, progress := none, error := none }
    | _, _, _ => none

/-- `fetch_repository_details` (github.py lines 231-234): `GET /repos/{owner}/{repo}`
through `_request`, then `_convert_to_model(data, RepoInfo)` — note the plain
`RepoInfo`, not the `RepoDetails` the abstract base (base.py line 180) declares. -/
def fetchRepositoryDetails (token : String) (mgrNext : Option (Option String))
    (resp : HttpResponse) : Except FetchError RepoInfo :=
  match (ghRequest token mgrNext resp).result with
  | Except.error e => Except.error (FetchError.api e)
  | Except.ok body =>
    match convertToRepoInfo body with
    | Except.error e => Except.error (FetchError.py e)
    | Except.ok r => Except.ok r

theorem startsWithB_refl (l : List Char) : startsWithB l l = true := by
  induction l with
  | nil => rfl
  | cons a as ih => simp [startsWithB, ih]

theorem containsB_self (n : List Char) : containsB n n = true := by
  cases n with
  | nil => rfl
  | cons c rest => simp [containsB, startsWithB_refl]

theorem containsB_append_of_right (n a b : List Char) (h : containsB n b = true) :
    containsB n (a ++ b) = true := by
  induction a with
  | nil => simpa using h
  | cons x xs ih => simp [containsB, ih]

/-- C7: every request the GitHub client sends carries exactly the three headers
`Authorization: token <T>` (with `<T>` the token selected for the request),
`Accept: application/vnd.github.v3+json`, and the client-identifying
`User-Agent: GitFleet-Client` (github.py lines 79-83). -/
theorem request_headers_exact (token : String) (mgrNext : Option (Option String))
    (resp : HttpResponse) :
    (ghRequest token mgrNext resp).headersSent =
      [("Authorization", "token " ++ (ghRequest token mgrNext resp).tokenUsed),
       ("Accept", "application/vnd.github.v3+json"),
       ("User-Agent", "GitFleet-Client")] := by
  unfold ghRequest
  rcases mgrNext with _ | (_ | t) <;>
    by_cases h1 : resp.status = 403 ∧ resp.rateLimitRemaining = some 0 <;>
    by_cases h2 : resp.status = 401 <;>
    by_cases h3 : 200 ≤ resp.status ∧ resp.status ≤ 299 <;>
    simp [h1, h2, h3]

/-- C2: `validate_credentials()` returns true exactly when `fetch_user_info()`
succeeds, returns false when it fails with the authentication failure
`AuthError`, and re-raises every other failure unchanged (github.py lines
248-256). -/
theorem validate_credentials_spec :
    (∀ r : Except FetchError UserInfo,
      ((∃ u, r = Except.ok u) ↔ validateCredentials r = Except.ok true)) ∧
    validateCredentials (Except.error (FetchError.api GitHubRequestError.authError)) =
      Except.ok false ∧
    (∀ e : FetchError, e ≠ FetchError.api GitHubRequestError.authError →
      validateCredentials (Except.error e) = Except.error e) := by
  refine ⟨?_, rfl, ?_⟩
  · intro r
    cases r with
    | ok u => simp [validateCredentials]
    | error e =>
      constructor
      · rintro ⟨u, hu⟩
        simp at hu
      · intro hcontra
        cases e with
        | api g => cases g <;> simp [validateCredentials] at hcontra
        | py q => simp [validateCredentials] at hcontra
  · intro e he
    cases e with
    | api g =>
      cases g with
      | authError => exact absurd rfl he
      | rateLimitError t => rfl
      | httpStatusError s => rfl
    | py q => rfl

/-- Witness for C2: a non-authentication failure (an HTTP 500 provider error)
propagates out of `validate_credentials` unchanged. -/
theorem validate_credentials_spec_witness :
    validateCredentials
        (Except.error (FetchError.api (GitHubRequestError.httpStatusError 500))) =
      Except.error (FetchError.api (GitHubRequestError.httpStatusError 500)) :=
  validate_credentials_spec.2.2 _ (by decide)

/-- Counterexample for C4: the claim says every list endpoint issues its
request with `per_page=100`, but `fetch_contributors` (github.py line 238)
requests `/repos/{owner}/{repo}/contributors` with no query string at all. -/
theorem contributors_endpoint_no_per_page :
    issuesPerPage100 (fetchContributorsEndpoint "octocat" "hello-world") = false := by
  decide

/-- C4 as amended: `fetch_repositories` requests `per_page=100` for every
owner (github.py line 218), while `fetch_contributors` and `fetch_branches`
(github.py lines 238 and 245, shown at representative inputs) issue their
requests without `per_page=100`. -/
theorem per_page_only_on_fetch_repositories :
    (∀ owner : String,
      issuesPerPage100 (fetchRepositoriesEndpoint owner) = true) ∧
    issuesPerPage100 (fetchContributorsEndpoint "octocat" "hello-world") = false ∧
    issuesPerPage100 (fetchBranchesEndpoint "octocat" "hello-world") = false := by
  refine ⟨?_, by decide, by decide⟩
  intro owner
  unfold issuesPerPage100 fetchRepositoriesEndpoint
  have h1 : ("/users/" ++ owner ++ "/repos?per_page=100").data =
      ("/users/".data ++ owner.data ++ "/repos?".data) ++ "per_page=100".data := by
    simp [String.data_append]
  rw [h1]
  exact containsB_append_of_right _ _ _ (containsB_self _)

/-- Counterexample for C1: the claim says an HTTP 404 raises a not-found
failure, but `_request` has no not-found branch: a 404 reaches
`response.raise_for_status()` (github.py line 118) and raises the same
generic `httpx.HTTPStatusError` as any other non-2xx status, whose kind is
the generic provider failure, not the not-found failure. -/
theorem github_request_404_is_generic :
    (ghRequest "tkn" none
        { status := 404, rateLimitRemaining := none, rateLimitReset := none,
          body := Json.null }).result =
      Except.error (GitHubRequestError.httpStatusError 404) ∧
    GitHubRequestError.kind (GitHubRequestError.httpStatusError 404) ≠ ErrKind.notFound := by
  refine ⟨rfl, by decide⟩

/-- C1 as amended: for every response received by `_request`, a 403 with
`X-RateLimit-Remaining: 0` raises the rate-limit failure carrying
`X-RateLimit-Reset` (0 when the header is absent); a 401 raises the
authentication failure and marks the token invalid exactly when an attached
token manager supplied the token used; and every other non-2xx status,
404 included, raises the one generic HTTP status failure carrying the
status — there is no distinct not-found failure. A 2xx status returns the
JSON body. -/
theorem github_request_error_mapping (token : String)
    (mgrNext : Option (Option String)) (resp : HttpResponse) :
    (resp.status = 403 → resp.rateLimitRemaining = some 0 →
      (ghRequest token mgrNext resp).result =
        Except.error (GitHubRequestError.rateLimitError (resp.rateLimitReset.getD 0))) ∧
    (resp.status = 401 →
      (ghRequest token mgrNext resp).result = Except.error GitHubRequestError.authError ∧
      ((∃ t, mgrNext = some (some t)) ↔
        Effect.markTokenInvalid (ghRequest token mgrNext resp).tokenUsed ∈
          (ghRequest token mgrNext resp).effects)) ∧
    (¬ (200 ≤ resp.status ∧ resp.status ≤ 299) → resp.status ≠ 401 →
      ¬ (resp.status = 403 ∧ resp.rateLimitRemaining = some 0) →
      (ghRequest token mgrNext resp).result =
        Except.error (GitHubRequestError.httpStatusError resp.status)) ∧
    (200 ≤ resp.status → resp.status ≤ 299 →
      (ghRequest token mgrNext resp).result = Except.ok resp.body) := by
  refine ⟨?_, ?_, ?_, ?_⟩
  · intro h403 hrem
    unfold ghRequest
    simp [h403, hrem]
  · intro h401
    have hn403 : ¬ (resp.status = 403 ∧ resp.rateLimitRemaining = some 0) := by
      intro hc
      rw [h401] at hc
      exact absurd hc.1 (by decide)
    constructor
    · unfold ghRequest
      simp [hn403, h401]
    · unfold ghRequest
      rcases mgrNext with _ | (_ | t) <;> simp [hn403, h401, Effect.markTokenInvalid]
  · intro hno2xx hn401 hn403
    unfold ghRequest
    simp [hn403, hn401, hno2xx]
  · intro hlo hhi
    have hn403 : ¬ (resp.status = 403 ∧ resp.rateLimitRemaining = some 0) := by
      rintro ⟨hs, _⟩
      omega
    have hn401 : resp.status ≠ 401 := by omega
    unfold ghRequest
    simp [hn403, hn401, hlo, hhi]

/-- Witness for C1 as amended: at a concrete 403 response with
`X-RateLimit-Remaining: 0` and `X-RateLimit-Reset: 99`, the call raises the
rate-limit failure carrying 99. -/
theorem github_request_error_mapping_witness :
    (ghRequest "tkn" none
        { status := 403, rateLimitRemaining := some 0, rateLimitReset := some 99,
          body := Json.null }).result =
      Except.error (GitHubRequestError.rateLimitError 99) :=
  (github_request_error_mapping "tkn" none
    { status := 403, rateLimitRemaining := some 0, rateLimitReset := some 99,
      body := Json.null }).1 rfl rfl

/-- A token pool holding only the constructor token "T", after "T" has been
marked invalid (as a 401 does): `get_next_available_token` then returns
nothing, although the pool still owns "T". -/
def tmAllInvalid : TokenManager :=
  (TokenManager.empty.addToken "T").markTokenInvalid "T"

/-- The response used in the C3 scenario: a plain 200 carrying rate-limit
headers `X-RateLimit-Remaining: 42`, `X-RateLimit-Reset: 7`. -/
def c3Response : HttpResponse :=
  { status := 200, rateLimitRemaining := some 42, rateLimitReset := some 7,
    body := Json.null }

/-- Counterexample for C3: the claim says the pair (remaining, reset_time) is
pushed whenever the attached manager owns the token used, but github.py lines
91-96 guard the push with `if self.token_manager and token_info:` — when
`get_next_available_token` returns `None` the request is made with the
constructor token, which the manager owns (it was registered by `__init__`),
and no `update_rate_limit` call happens at all. The token manager is modelled
from the spec (its module is absent from the sources). -/
theorem rate_limit_push_skipped_when_manager_returns_none :
    tmAllInvalid.owns "T" = true ∧
    tmAllInvalid.getNextAvailableToken 0 = none ∧
    (ghRequest "T" (some ((tmAllInvalid.getNextAvailableToken 0).map TokenInfo.token))
        c3Response).tokenUsed = "T" ∧
    (ghRequest "T" (some ((tmAllInvalid.getNextAvailableToken 0).map TokenInfo.token))
        c3Response).effects = [] := by
  refine ⟨by decide, by decide, rfl, rfl⟩

/-- C3 as amended: on every response, `_request` pushes
`(X-RateLimit-Remaining, X-RateLimit-Reset)` (absent headers defaulting to 0)
into the token manager exactly when the attached manager supplied the token
via `get_next_available_token`; the push then names that token, comes first —
before any error mapping effect — and happens regardless of the response
status. With no manager, or a manager that returned no token, no push
happens. -/
theorem rate_limit_update_iff_manager_supplied (token : String)
    (mgrNext : Option (Option String)) (resp : HttpResponse) :
    (∀ t, mgrNext = some (some t) →
      ∃ rest, (ghRequest token mgrNext resp).effects =
        Effect.updateRateLimit t (resp.rateLimitRemaining.getD 0)
          (resp.rateLimitReset.getD 0) :: rest) ∧
    ((mgrNext = none ∨ mgrNext = some none) →
      (ghRequest token mgrNext resp).effects = []) := by
  constructor
  · intro t ht
    subst ht
    unfold ghRequest
    by_cases h1 : resp.status = 403 ∧ resp.rateLimitRemaining = some 0 <;>
      by_cases h2 : resp.status = 401 <;>
      by_cases h3 : 200 ≤ resp.status ∧ resp.status ≤ 299 <;>
      simp [h1, h2, h3]
  · intro hcase
    unfold ghRequest
    rcases hcase with h | h <;> subst h <;>
      by_cases h1 : resp.status = 403 ∧ resp.rateLimitRemaining = some 0 <;>
      by_cases h2 : resp.status = 401 <;>
      by_cases h3 : 200 ≤ resp.status ∧ resp.status ≤ 299 <;>
      simp [h1, h2, h3]

/-- Witness for C3 as amended: when the manager supplied token "M", the first
effect of the request is the rate-limit push for "M" with (42, 7). -/
theorem rate_limit_update_iff_manager_supplied_witness :
    (ghRequest "T" (some (some "M")) c3Response).effects.head? =
      some (Effect.updateRateLimit "M" 42 7) := by
  obtain ⟨rest, hrest⟩ :=
    (rate_limit_update_iff_manager_supplied "T" (some (some "M")) c3Response).1 "M" rfl
  rw [hrest]
  rfl

/-- C9: constructing a `GitHubClient` with an attached token manager registers
the constructor token in that manager (github.py lines 60-63, `add_token`
modelled from the spec as idempotent insertion); on a request, a token
returned by `get_next_available_token` is the one used, while a `None` answer
falls back to the constructor token and the request still goes through (a 2xx
response yields its body). -/
theorem client_init_and_token_selection (token : String) (m : TokenManager)
    (resp : HttpResponse) (t : String) :
    (ghInit token none (some m)).2 = some (m.addToken token) ∧
    (m.addToken token).owns token = true ∧
    (ghRequest token (some (some t)) resp).tokenUsed = t ∧
    (ghRequest token (some none) resp).tokenUsed = token ∧
    (200 ≤ resp.status → resp.status ≤ 299 →
      (ghRequest token (some none) resp).result = Except.ok resp.body) := by
  refine ⟨rfl, ?_, ?_, ?_, ?_⟩
  · unfold TokenManager.addToken TokenManager.owns
    by_cases hany : m.tokens.any (fun ti => ti.token = token)
    · simp [hany]
    · simp [hany]
  · unfold ghRequest
    by_cases h1 : resp.status = 403 ∧ resp.rateLimitRemaining = some 0 <;>
      by_cases h2 : resp.status = 401 <;>
      by_cases h3 : 200 ≤ resp.status ∧ resp.status ≤ 299 <;>
      simp [h1, h2, h3]
  · unfold ghRequest
    by_cases h1 : resp.status = 403 ∧ resp.rateLimitRemaining = some 0 <;>
      by_cases h2 : resp.status = 401 <;>
      by_cases h3 : 200 ≤ resp.status ∧ resp.status ≤ 299 <;>
      simp [h1, h2, h3]
  · intro hlo hhi
    have hn403 : ¬ (resp.status = 403 ∧ resp.rateLimitRemaining = some 0) := by
      rintro ⟨hs, _⟩
      omega
    have hn401 : resp.status ≠ 401 := by omega
    unfold ghRequest
    simp [hn403, hn401, hlo, hhi]

/-- Witness for C9: a fresh manager, the token "T", a manager answer "M", and
a concrete 200 response with body `"ok"`. -/
theorem client_init_and_token_selection_witness :
    (ghInit "T" none (some TokenManager.empty)).2 =
      some (TokenManager.empty.addToken "T") ∧
    (TokenManager.empty.addToken "T").owns "T" = true ∧
    (ghRequest "T" (some (some "M"))
        { status := 200, rateLimitRemaining := none, rateLimitReset := none,
          body := Json.str "ok" }).tokenUsed = "M" ∧
    (ghRequest "T" (some none)
        { status := 200, rateLimitRemaining := none, rateLimitReset := none,
          body := Json.str "ok" }).result = Except.ok (Json.str "ok") := by
  have h := client_init_and_token_selection "T" TokenManager.empty
    { status := 200, rateLimitRemaining := none, rateLimitReset := none,
      body := Json.str "ok" } "M"
  exact ⟨h.1, h.2.1, h.2.2.1, h.2.2.2.2 (by decide) (by decide)⟩

/-- Every value `mkCloneStatus` constructs has one of the four legal shapes. -/
theorem mkCloneStatus_shapes (tag : String) (p : Option Int) (e : Option String)
    (st : PydanticCloneStatus) (h : mkCloneStatus tag p e = some st) :
    (∃ pr, 0 ≤ pr ∧ pr ≤ 100 ∧
      st = { status_type := CloneStatusType.cloning, progress := some pr, error := none }) ∨
    (∃ er, er ≠ "" ∧
      st = { status_type := CloneStatusType.failed, progress := none, error := some er }) ∨
    st = { status_type := CloneStatusType.queued, progress := none, error := none } ∨
    st = { status_type := CloneStatusType.completed, progress := none, error := none } := by
  unfold mkCloneStatus at h
  cases hp : parseStatusType tag with
  | none => rw [hp] at h; cases h
  | some t =>
    rw [hp] at h
    cases t with
    | queued =>
      cases p <;> cases e <;> simp at h
      exact Or.inr (Or.inr (Or.inl h.symm))
    | completed =>
      cases p <;> cases e <;> simp at h
      exact Or.inr (Or.inr (Or.inr h.symm))
    | cloning =>
      cases p with
      | none => cases e <;> cases h
      | some pr =>
        cases e with
        | some er => cases h
        | none =>
          have h2 : (if 0 ≤ pr ∧ pr ≤ 100 then
              some { status_type := CloneStatusType.cloning, progress := some pr,
                     error := (none : Option String) }
            else none) = some st := h
          by_cases hc : 0 ≤ pr ∧ pr ≤ 100
          · rw [if_pos hc] at h2
            injection h2 with h3
            exact Or.inl ⟨pr, hc.1, hc.2, h3.symm⟩
          · rw [if_neg hc] at h2
            cases h2
    | failed =>
      cases p with
      | some pr => cases e <;> cases h
      | none =>
        cases e with
        | none => cases h
        | some er =>
          have h2 : (if er ≠ "" then
              some { status_type := CloneStatusType.failed,
                     progress := (none : Option Int), error := some er }
            else none) = some st := h
          by_cases hc : er ≠ ""
          · rw [if_pos hc] at h2
            injection h2 with h3
            exact Or.inr (Or.inl ⟨er, hc, h3.symm⟩)
          · rw [if_neg hc] at h2
            cases h2

/-- C8: a `CloneStatus` constructed from a flat record satisfies the variant
invariant — progress present iff the tag is Cloning and then within [0,100],
error present iff the tag is Failed and then non-empty — and every other
combination is rejected; in particular `Cloning` with `progress=101` is
rejected. The clone-status model is modelled from the spec
(GitFleet/models/repo.py is absent from the sources). -/
theorem clone_status_invariant :
    (∀ tag p e st, mkCloneStatus tag p e = some st →
      ((st.progress.isSome ↔ st.status_type = CloneStatusType.cloning) ∧
       (∀ pr, st.progress = some pr → 0 ≤ pr ∧ pr ≤ 100) ∧
       (st.error.isSome ↔ st.status_type = CloneStatusType.failed) ∧
       (∀ er, st.error = some er → er ≠ ""))) ∧
    mkCloneStatus "cloning" (some 101) none = none ∧
    (∀ p e, mkCloneStatus "queued" p e = none ∨ (p = none ∧ e = none)) ∧
    (∀ p e, mkCloneStatus "completed" p e = none ∨ (p = none ∧ e = none)) ∧
    (∀ p e, mkCloneStatus "cloning" p e = none ∨
      (e = none ∧ ∃ pr, p = some pr ∧ 0 ≤ pr ∧ pr ≤ 100)) ∧
    (∀ p e, mkCloneStatus "failed" p e = none ∨
      (p = none ∧ ∃ er, e = some er ∧ er ≠ "")) := by
  refine ⟨?_, by decide, ?_, ?_, ?_, ?_⟩
  · intro tag p e st h
    rcases mkCloneStatus_shapes tag p e st h with
      ⟨pr, h0, h100, hst⟩ | ⟨er, hne, hst⟩ | hst | hst <;> subst hst
    · refine ⟨by simp, ?_, by simp, by simp⟩
      intro pr2 hpr2
      simp at hpr2
      omega
    · refine ⟨by simp, by simp, by simp, ?_⟩
      intro er2 her2
      simp at her2
      subst her2
      exact hne
    · exact ⟨by simp, by simp, by simp, by simp⟩
    · exact ⟨by simp, by simp, by simp, by simp⟩
  · intro p e
    cases p <;> cases e <;> simp [mkCloneStatus, parseStatusType]
  · intro p e
    cases p <;> cases e <;> simp [mkCloneStatus, parseStatusType]
  · intro p e
    cases p with
    | none => cases e <;> simp [mkCloneStatus, parseStatusType]
    | some pr =>
      cases e with
      | some er => simp [mkCloneStatus, parseStatusType]
      | none =>
        by_cases hc : 0 ≤ pr ∧ pr ≤ 100
        · exact Or.inr ⟨rfl, pr, rfl, hc.1, hc.2⟩
        · left
          simp [mkCloneStatus, parseStatusType, if_neg hc]
  · intro p e
    cases p with
    | some pr => cases e <;> simp [mkCloneStatus, parseStatusType]
    | none =>
      cases e with
      | none => simp [mkCloneStatus, parseStatusType]
      | some er =>
        by_cases hc : er ≠ ""
        · exact Or.inr ⟨rfl, er, rfl, hc⟩
        · left
          simp [mkCloneStatus, parseStatusType, if_neg hc]

/-- Witness for C8: the flat record (tag "cloning", progress 50) constructs,
and the constructed value satisfies the variant invariant. -/
theorem clone_status_invariant_witness :
    mkCloneStatus "cloning" (some 50) none =
      some { status_type := CloneStatusType.cloning, progress := some 50,
             error := none } ∧
    (({ status_type := CloneStatusType.cloning, progress := some 50,
        error := none } : PydanticCloneStatus).progress.isSome ↔
      ({ status_type := CloneStatusType.cloning, progress := some 50,
         error := none } : PydanticCloneStatus).status_type = CloneStatusType.cloning) ∧
    mkCloneStatus "cloning" (some 101) none = none :=
  ⟨by decide,
   (clone_status_invariant.1 "cloning" (some 50) none _ (by decide)).1,
   clone_status_invariant.2.1⟩

/-- Counterexample for C6: the claim says a payload missing the required field
`UserInfo.id` fails with a protocol error, but github.py line 164 reads it as
`str(data.get("id", ""))`: a payload carrying only `login` converts
successfully, with `id` silently defaulted to the empty string. -/
theorem user_info_missing_id_succeeds :
    convertToUserInfo (Json.obj [("login", Json.str "octocat")]) =
      Except.ok
        { id := "", login := Json.str "octocat", name := Json.null,
          email := Json.null, avatar_url := Json.null,
          provider_type := ProviderType.github,
          raw_data := Json.obj [("login", Json.str "octocat")] } := rfl

/-- C6 as amended: missing optional fields are tolerated and defaulted, and a
missing `login` (UserInfo, ContributorInfo), `name`/`full_name`/`clone_url`
(RepoInfo, when a truthy owner is present), `contributions` (ContributorInfo)
or branch `name`/`commit.sha` (BranchInfo) fails with a KeyError — but a
missing `id` (UserInfo, ContributorInfo) is defaulted to the empty string
rather than failing, and a RepoInfo payload without an `owner` key fails with
the fall-through ValueError even though the spec lists `owner` as optional. -/
theorem convert_to_model_required_fields :
    (∀ d l, lookupJ d "login" = some l →
      convertToUserInfo (Json.obj d) = Except.ok
        { id := pyStr (pyGetD d "id" (Json.str "")), login := l,
          name := pyGetD d "name" Json.null, email := pyGetD d "email" Json.null,
          avatar_url := pyGetD d "avatar_url" Json.null,
          provider_type := ProviderType.github, raw_data := Json.obj d }) ∧
    (∀ d, lookupJ d "login" = none →
      convertToUserInfo (Json.obj d) = Except.error (PyErr.keyError "login")) ∧
    (∀ d, lookupJ d "owner" = none →
      convertToRepoInfo (Json.obj d) = Except.error PyErr.valueErrorUnsupported) ∧
    (∀ d od, lookupJ d "owner" = some (Json.obj od) →
      (Json.obj od).truthy = true →
      ((convertToRepoInfo (Json.obj d)).isOk = true ↔
        ((lookupJ d "name").isSome ∧ (lookupJ d "full_name").isSome ∧
         (lookupJ d "clone_url").isSome))) ∧
    (∀ d, lookupJ d "login" = none →
      convertToContributorInfo (Json.obj d) = Except.error (PyErr.keyError "login")) ∧
    (∀ d l, lookupJ d "login" = some l → lookupJ d "contributions" = none →
      convertToContributorInfo (Json.obj d) = Except.error (PyErr.keyError "contributions")) ∧
    (∀ d l c, lookupJ d "login" = some l → lookupJ d "contributions" = some c →
      convertToContributorInfo (Json.obj d) = Except.ok
        { id := pyStr (pyGetD d "id" (Json.str "")), login := l, contributions := c,
          avatar_url := pyGetD d "avatar_url" Json.null,
          provider_type := ProviderType.github, raw_data := Json.obj d }) ∧
    (∀ d, lookupJ d "name" = none →
      convertToBranchInfo (Json.obj d) = Except.error (PyErr.keyError "name")) ∧
    (∀ d nm, lookupJ d "name" = some nm → lookupJ d "commit" = none →
      convertToBranchInfo (Json.obj d) = Except.error (PyErr.keyError "commit")) ∧
    (∀ d nm cd, lookupJ d "name" = some nm →
      lookupJ d "commit" = some (Json.obj cd) → lookupJ cd "sha" = none →
      convertToBranchInfo (Json.obj d) = Except.error (PyErr.keyError "sha")) ∧
    (∀ d nm cd sha, lookupJ d "name" = some nm →
      lookupJ d "commit" = some (Json.obj cd) → lookupJ cd "sha" = some sha →
      convertToBranchInfo (Json.obj d) = Except.ok
        { name := nm, commit_sha := sha,
          protected_flag := pyGetD d "protected" (Json.bool false),
          provider_type := ProviderType.github, raw_data := Json.obj d }) := by
  refine ⟨?_, ?_, ?_, ?_, ?_, ?_, ?_, ?_, ?_, ?_, ?_⟩
  · intro d l hl
    simp [convertToUserInfo, hl]
  · intro d hl
    simp [convertToUserInfo, hl]
  · intro d hown
    simp [convertToRepoInfo, hown]
  · intro d od hown htruthy
    cases h1 : lookupJ d "name" <;> cases h2 : lookupJ d "full_name" <;>
      cases h3 : lookupJ d "clone_url" <;>
      simp [convertToRepoInfo, pyIndex, hown, htruthy, h1, h2, h3, Except.isOk,
        Except.toBool]
  · intro d hl
    simp [convertToContributorInfo, pyIndex, hl]
  · intro d l hl hc
    simp [convertToContributorInfo, pyIndex, hl, hc]
  · intro d l c hl hc
    simp [convertToContributorInfo, pyIndex, hl, hc]
  · intro d hn
    simp [convertToBranchInfo, pyIndex, hn]
  · intro d nm hn hc
    simp [convertToBranchInfo, pyIndex, hn, hc]
  · intro d nm cd hn hc hs
    simp [convertToBranchInfo, pyIndex, hn, hc, hs]
  · intro d nm cd sha hn hc hs
    simp [convertToBranchInfo, pyIndex, hn, hc, hs]

/-- Witness for C6 as amended: a contributor payload with `login` and
`contributions` but no `id` converts successfully with the defaulted id, and
a branch payload without `commit` fails with the KeyError. -/
theorem convert_to_model_required_fields_witness :
    convertToContributorInfo
        (Json.obj [("login", Json.str "octocat"), ("contributions", Json.num 5)]) =
      Except.ok
        { id := "", login := Json.str "octocat", contributions := Json.num 5,
          avatar_url := Json.null, provider_type := ProviderType.github,
          raw_data := Json.obj [("login", Json.str "octocat"),
                                ("contributions", Json.num 5)] } ∧
    convertToBranchInfo (Json.obj [("name", Json.str "main")]) =
      Except.error (PyErr.keyError "commit") :=
  ⟨convert_to_model_required_fields.2.2.2.2.2.2.1
      [("login", Json.str "octocat"), ("contributions", Json.num 5)]
      (Json.str "octocat") (Json.num 5) rfl rfl,
   convert_to_model_required_fields.2.2.2.2.2.2.2.2.1
      [("name", Json.str "main")] (Json.str "main") rfl rfl⟩

/-- A repository-details payload as `GET /repos/{owner}/{repo}` returns it,
carrying all nine `RepoDetails` extension fields (`topics`, `license`,
`homepage`, `has_wiki`, `has_issues`, `has_projects`, `archived`, `pushed_at`,
`size`) on top of the required `RepoInfo` fields. -/
def repoDetailsPayload : List (String × Json) :=
  [("name", Json.str "repo"), ("full_name", Json.str "owner/repo"),
   ("clone_url", Json.str "https://example.invalid/repo.git"),
   ("owner", Json.obj [("id", Json.num 1), ("login", Json.str "owner")]),
   ("topics", Json.arr [Json.str "cli"]), ("license", Json.str "mit"),
   ("homepage", Json.str "https://example.invalid"),
   ("has_wiki", Json.bool true), ("has_issues", Json.bool true),
   ("has_projects", Json.bool false), ("archived", Json.bool false),
   ("pushed_at", Json.str "2024-01-01T00:00:00Z"), ("size", Json.num 42)]

/-- The same payload stripped of every `RepoDetails` extension field. -/
def repoPlainPayload : List (String × Json) :=
  [("name", Json.str "repo"), ("full_name", Json.str "owner/repo"),
   ("clone_url", Json.str "https://example.invalid/repo.git"),
   ("owner", Json.obj [("id", Json.num 1), ("login", Json.str "owner")])]

/-- C5, evaluated at the failing input: `fetch_repository_details` converts
its response with `_convert_to_model(data, RepoInfo)` (github.py line 234),
so it returns a plain `RepoInfo`: on a payload carrying all nine
`RepoDetails` extension fields it produces exactly the same record as on the
stripped payload (only the `raw_data` passthrough differs) — the extension
fields (`topics`, `license`, `homepage`, `has_wiki`, `has_issues`,
`has_projects`, `archived`, `pushed_at`, `size`) are not surfaced, although
the abstract base (base.py lines 179-195) declares the return type
`RepoDetails`. -/
theorem fetch_repository_details_returns_plain_repo_info :
    fetchRepositoryDetails "tkn" none
        { status := 200, rateLimitRemaining := none, rateLimitReset := none,
          body := Json.obj repoDetailsPayload } =
      Except.ok
        { name := Json.str "repo", full_name := Json.str "owner/repo",
          clone_url := Json.str "https://example.invalid/repo.git",
          description := Json.null, default_branch := Json.str "main",
          created_at := Json.null, updated_at := Json.null,
          language := Json.null, fork := Json.bool false,
          forks_count := Json.num 0, stargazers_count := Json.null,
          provider_type := ProviderType.github,
          visibility := Json.str "public",
          owner := some
            { id := "1", login := Json.str "owner", name := Json.null,
              email := Json.null, avatar_url := Json.null,
              provider_type := ProviderType.github,
              raw_data := Json.obj [("id", Json.num 1),
                                    ("login", Json.str "owner")] },
          raw_data := Json.obj repoDetailsPayload } ∧
    fetchRepositoryDetails "tkn" none
        { status := 200, rateLimitRemaining := none, rateLimitReset := none,
          body := Json.obj repoPlainPayload } =
      Except.ok
        { name := Json.str "repo", full_name := Json.str "owner/repo",
          clone_url := Json.str "https://example.invalid/repo.git",
          description := Json.null, default_branch := Json.str "main",
          created_at := Json.null, updated_at := Json.null,
          language := Json.null, fork := Json.bool false,
          forks_count := Json.num 0, stargazers_count := Json.null,
          provider_type := ProviderType.github,
          visibility := Json.str "public",
          owner := some
            { id := "1", login := Json.str "owner", name := Json.null,
              email := Json.null, avatar_url := Json.null,
              provider_type := ProviderType.github,
              raw_data := Json.obj [("id", Json.num 1),
                                    ("login", Json.str "owner")] },
          raw_data := Json.obj repoPlainPayload } :=
  ⟨rfl, rfl⟩

theorem b64Val_b64Char : ∀ n, n < 64 → b64Val (b64Char n) = n := by decide

theorem b64Char_ne_pad : ∀ n, n < 64 → b64Char n ≠ 61 := by decide

/-- Base64 decoding inverts base64 encoding on every byte list. -/
theorem b64_roundtrip : ∀ bs : List Nat, (∀ b ∈ bs, b < 256) →
    b64decode (b64encode bs) = bs
  | [], _ => rfl
  | [a], h => by
    have ha : a < 256 := h a (by simp)
    have h1 : a / 4 < 64 := by omega
    have h2 : a % 4 * 16 < 64 := by omega
    simp only [b64encode, b64decode]
    simp only [if_pos trivial]
    rw [b64Val_b64Char _ h1, b64Val_b64Char _ h2]
    congr 1
    omega
  | [a, b], h => by
    have ha : a < 256 := h a (by simp)
    have hb : b < 256 := h b (by simp)
    have h1 : a / 4 < 64 := by omega
    have h2 : a % 4 * 16 + b / 16 < 64 := by omega
    have h3 : b % 16 * 4 < 64 := by omega
    simp only [b64encode, b64decode]
    rw [if_neg (b64Char_ne_pad _ h3)]
    simp only [if_pos trivial]
    rw [b64Val_b64Char _ h1, b64Val_b64Char _ h2, b64Val_b64Char _ h3]
    congr 1
    · omega
    congr 1
    omega
  | a :: b :: c :: d :: rest, h => by
    have ha : a < 256 := h a (by simp)
    have hb : b < 256 := h b (by simp)
    have hc : c < 256 := h c (by simp)
    have ih := b64_roundtrip (d :: rest) (fun x hx => h x (by simp at hx ⊢; tauto))
    have h1 : a / 4 < 64 := by omega
    have h2 : a % 4 * 16 + b / 16 < 64 := by omega
    have h3 : b % 16 * 4 + c / 64 < 64 := by omega
    have h4 : c % 64 < 64 := by omega
    simp only [b64encode, b64decode]
    rw [if_neg (b64Char_ne_pad _ h3), if_neg (b64Char_ne_pad _ h4)]
    rw [b64Val_b64Char _ h1, b64Val_b64Char _ h2, b64Val_b64Char _ h3,
        b64Val_b64Char _ h4]
    rw [show b64decode (b64encode (d :: rest)) = d :: rest from ih]
    congr 1
    · omega
    congr 1
    · omega
    congr 1
    omega
  | [a, b, c], h => by
    have ha : a < 256 := h a (by simp)
    have hb : b < 256 := h b (by simp)
    have hc : c < 256 := h c (by simp)
    have h1 : a / 4 < 64 := by omega
    have h2 : a % 4 * 16 + b / 16 < 64 := by omega
    have h3 : b % 16 * 4 + c / 64 < 64 := by omega
    have h4 : c % 64 < 64 := by omega
    simp only [b64encode, b64decode]
    rw [if_neg (b64Char_ne_pad _ h3), if_neg (b64Char_ne_pad _ h4)]
    rw [b64Val_b64Char _ h1, b64Val_b64Char _ h2, b64Val_b64Char _ h3,
        b64Val_b64Char _ h4]
    congr 1
    · omega
    congr 1
    · omega
    congr 1
    omega

theorem getEntry_setEntry (d : List (String × List StoredCred)) (k : String)
    (v : List StoredCred) : getEntry (setEntry d k v) k = v := by
  induction d with
  | nil => simp [setEntry, getEntry]
  | cons kv rest ih =>
    by_cases hk : kv.1 = k
    · simp [setEntry, getEntry, hk]
    · simp [setEntry, getEntry, hk, ih]

/-- C10: after `save_credential(provider, token, username, host)`, a
`get_credentials(provider)` call returns a list containing an entry whose
token is exactly the saved one — the base64 storage encoding round-trips —
with the username and host preserved (auth.py lines 47-53, 55-91, 93-142).
Token strings are modelled as their UTF-8 byte lists. -/
theorem credential_roundtrip (cm : CredentialManager) (p : ProviderType)
    (tok : List Nat) (u host : Option String) (hb : ∀ b ∈ tok, b < 256) :
    ({ provider := p, token := tok, username := u, host := host } :
        CredentialEntry) ∈
      (getCredentials (saveCredential cm p tok u host) p).1 := by
  have hmem : ({ token := b64encode tok, username := u, host := host } :
      StoredCred) ∈
      getEntry cm.fileData (providerValue p) ++
        [{ token := b64encode tok, username := u, host := host }] :=
    List.mem_append_right _ (List.mem_singleton_self _)
  have hmap : ({ provider := p, token := b64decode (b64encode tok),
                 username := u, host := host } : CredentialEntry) ∈
      List.map (fun c : StoredCred =>
        ({ provider := p, token := b64decode c.token, username := c.username,
           host := c.host } : CredentialEntry))
        (getEntry cm.fileData (providerValue p) ++
          [{ token := b64encode tok, username := u, host := host }]) :=
    List.mem_map_of_mem _ hmem
  rw [b64_roundtrip tok hb] at hmap
  show ({ provider := p, token := tok, username := u, host := host } :
      CredentialEntry) ∈
    List.map (fun c : StoredCred =>
      ({ provider := p, token := b64decode c.token, username := c.username,
         host := c.host } : CredentialEntry))
      (getEntry (setEntry cm.fileData (providerValue p)
        (getEntry cm.fileData (providerValue p) ++
          [{ token := b64encode tok, username := u, host := host }]))
        (providerValue p))
  rw [getEntry_setEntry]
  exact hmap

/-- Witness for C10: saving the github token bytes "hi" into an empty store
and reading back yields the exact entry. -/
theorem credential_roundtrip_witness :
    ({ provider := ProviderType.github, token := [104, 105],
       username := some "u", host := none } : CredentialEntry) ∈
      (getCredentials
        (saveCredential { fileData := [], cache := [] } ProviderType.github
          [104, 105] (some "u") none) ProviderType.github).1 :=
  credential_roundtrip { fileData := [], cache := [] } ProviderType.github
    [104, 105] (some "u") none (by decide)
